import Mathlib

/-!
Verification of the VLSI-Verification-Lab driver (`src/main.py`) against its
natural-language specification.

The repository's `src/` holds only `main.py`; the helper module
`functions/verilogFuncs.py` that it imports (parser, primitive catalog,
simulation engine, top-module resolver) is absent, so those parts are
modelled from the specification and marked as such in their doc comments.
Everything else is a direct shallow embedding of `main.py`.

Conventions: Python dicts keyed by strings become association lists with
insert-or-overwrite update (`storeSet`), preserving Python's insertion-order
semantics; `sys.exit` / raised exceptions become `Except` errors; interactive
`input()` calls become fields of an explicit `Env` record.
-/

namespace VlsiLab

/-- A port-to-signal binding of one instance, as produced by the parser
(`conn["port"]`, `conn["signal"]` in `main.py`). -/
structure Connection where
  port : String
  signal : String
deriving DecidableEq

/-- One instantiation inside a module (`inst["instance_name"]`,
`inst["module"]`, `inst["connections"]` in `main.py`). -/
structure Instance where
  instance_name : String
  module : String
  connections : List Connection
deriving DecidableEq

/-- A parsed module (`modules[name]["inputs"/"outputs"/"wires"/"instances"]`). -/
structure Module where
  inputs : List String
  outputs : List String
  wires : List String
  instances : List Instance
deriving DecidableEq

/-- The parsed module table: module name to module, in declaration order. -/
abbrev ModuleTable := List (String × Module)

/-- Name-to-value mappings (Python dicts of signal or port values). -/
abbrev Vals := List (String × Nat)

/-- The global signal-value store (`signal_values` in `main.py`). -/
abbrev Store := List (String × Nat)

/-- Python dict read: first (and, with `storeSet`, only) binding of a key. -/
def alookup {α : Type} (l : List (String × α)) (k : String) : Option α :=
  (l.find? (fun p => p.1 == k)).map (fun p => p.2)

/-- Python dict write: overwrite the binding in place, else append. -/
def storeSet : List (String × Nat) → String → Nat → List (String × Nat)
  | [], k, v => [(k, v)]
  | (k', v') :: rest, k, v =>
      if k' == k then (k, v) :: rest else (k', v') :: storeSet rest k v

/-- Membership of a key in a dict. -/
def hasKey {α : Type} (l : List (String × α)) (k : String) : Bool :=
  (alookup l k).isSome

/-- Modelled from the spec: the primitive catalog `verilogFuncs.primitive_ports`
is not under `src/`. Spec 4.1 fixes the closed set (buffer, inverter, AND, OR,
NAND, NOR, XOR, XNOR, half-adder, full-adder) with the FA/HA tags taken from
`main.py`; each entry maps a tag to its ordered input and output port names. -/
def primitive_ports : List (String × (List String × List String)) :=
  [ ("BUF", (["A"], ["Y"]))
  , ("NOT", (["A"], ["Y"]))
  , ("AND", (["A", "B"], ["Y"]))
  , ("OR", (["A", "B"], ["Y"]))
  , ("NAND", (["A", "B"], ["Y"]))
  , ("NOR", (["A", "B"], ["Y"]))
  , ("XOR", (["A", "B"], ["Y"]))
  , ("XNOR", (["A", "B"], ["Y"]))
  , ("HA", (["A", "B"], ["SUM", "COUT"]))
  , ("FA", (["A", "B", "CIN"], ["SUM", "COUT"]))
  ]

/-- Read one named value from a value mapping, 0 when absent. -/
def gv (iv : Vals) (p : String) : Nat := (alookup iv p).getD 0

/-- A stored bit read as a boolean (nonzero is true). -/
def bitOf (n : Nat) : Bool := n != 0

/-- A boolean written back as a 0/1 bit. -/
def b2n (b : Bool) : Nat := cond b 1 0

/-- Modelled from the spec: `verilogFuncs.primitive_simulators` is not under
`src/`. Spec 4.1 gives each primitive's pure boolean semantics: the obvious
gate functions, half-adder SUM = A xor B and COUT = A and B, full-adder
SUM = A xor B xor CIN and COUT = majority(A, B, CIN). -/
def primSim (t : String) (iv : Vals) : Vals :=
  let a := bitOf (gv iv "A")
  let b := bitOf (gv iv "B")
  let cin := bitOf (gv iv "CIN")
  if t == "BUF" then [("Y", b2n a)]
  else if t == "NOT" then [("Y", b2n (!a))]
  else if t == "AND" then [("Y", b2n (a && b))]
  else if t == "OR" then [("Y", b2n (a || b))]
  else if t == "NAND" then [("Y", b2n (!(a && b)))]
  else if t == "NOR" then [("Y", b2n (!(a || b)))]
  else if t == "XOR" then [("Y", b2n (a != b))]
  else if t == "XNOR" then [("Y", b2n (a == b))]
  else if t == "HA" then [("SUM", b2n (a != b)), ("COUT", b2n (a && b))]
  else if t == "FA" then
    [("SUM", b2n ((a != b) != cin)),
     ("COUT", b2n ((a && b) || (a && cin) || (b && cin)))]
  else []

/-- The hierarchical-to-primitive type mapping of `main.py` lines 70-73:
`full_adder` becomes the `FA` tag, `half_adder` becomes `HA`, every other
type name is left unchanged. -/
def mapGateType (t : String) : String :=
  if t = "full_adder" then "FA"
  else if t = "half_adder" then "HA"
  else t

/-- Underscore-joining of name components, as in the qualified-key format. -/
def joinKey : List String → String
  | [] => ""
  | [s] => s
  | s :: r :: rest => s ++ "_" ++ joinKey (r :: rest)

/-- Modelled from the spec: the engine's key builder lives in the absent
`verilogFuncs.simulate_module`. Spec 3 forms a qualified signal key by
concatenating the instantiation path with the local signal name; the
underscore separator is the one visible in `main.py` line 93
(f-string top_module underscore signal). -/
def qualifiedKey (path : List String) (sig : String) : String :=
  joinKey (path ++ [sig])

/-- The qualified key `main.py` line 93 builds for a signal local to the top
module. -/
def topKey (top sig : String) : String := top ++ "_" ++ sig

/-- Separator characters removed by the bit-file loader: comma plus the ASCII
whitespace class of the regex in `main.py` line 101. -/
def isSep (c : Char) : Bool :=
  c == ',' || c == ' ' || c == '\t' || c == '\n' || c == '\r' ||
  c == '\x0b' || c == '\x0c'

/-- The stripped character sequence of a bit file (`main.py` line 101). -/
def stripBits (content : String) : List Char :=
  content.data.filter (fun c => !isSep c)

/-- Python `int` applied to a single character: its decimal value for a digit,
a ValueError (here `none`) otherwise. -/
def digitVal (c : Char) : Option Nat :=
  if c.isDigit then some (c.toNat - '0'.toNat) else none

/-- Conversion of every stripped character, failing at the first non-digit as
the dict comprehension in `main.py` line 104 does. -/
def digitsVal : List Char → Option (List Nat)
  | [] => some []
  | c :: cs =>
      match digitVal c, digitsVal cs with
      | some v, some vs => some (v :: vs)
      | _, _ => none

/-- The two failure modes of the bit-file loader: the explicit bit-count check
of `main.py` line 102, and the ValueError `int` raises on a non-digit. -/
inductive LoadError
  | bitCountMismatch
  | invalidLiteral
deriving DecidableEq

/-- The bit-file loader of `main.py` lines 101-104: strip commas/whitespace,
require exactly one character per declared input port, then assign the i-th
character's integer value to the i-th port. -/
def load_bits (content : String) (inputs : List String) : Except LoadError Vals :=
  let bits := stripBits content
  if bits.length ≠ inputs.length then .error .bitCountMismatch
  else
    match digitsVal bits with
    | none => .error .invalidLiteral
    | some vals => .ok (inputs.zip vals)

/-- ASCII whitespace, the characters Python str.strip removes. -/
def isSpaceChar (c : Char) : Bool :=
  c == ' ' || c == '\t' || c == '\n' || c == '\r' || c == '\x0b' || c == '\x0c'

/-- Python str.strip over the ASCII range: drop leading and trailing
whitespace. -/
def pyStrip (s : String) : List Char :=
  ((s.data.dropWhile isSpaceChar).reverse.dropWhile isSpaceChar).reverse

/-- The test answer.strip().lower().startswith(c) applied to the y/n prompt
answers in `main.py` lines 80-82 and 98-99 (c is a single lowercase
letter there, so only the first stripped character matters). -/
def answerStarts (s : String) (c : Char) : Bool :=
  match (pyStrip s).map Char.toLower with
  | d :: _ => d == c
  | [] => false

/-- The guard of the interactive retry loop in `main.py` line 111: only the
exact strings 0 and 1 are accepted. -/
def interactiveAccepts (v : String) : Bool := v == "0" || v == "1"

/-- The per-port retry loop of `main.py` lines 110-113, reading typed answers
until one is accepted; `none` models an answer stream that never supplies a
valid bit (the program would keep prompting forever). -/
def readBit : List String → Option (Nat × List String)
  | [] => none
  | v :: rest =>
      if interactiveAccepts v then some (if v == "1" then 1 else 0, rest)
      else readBit rest

/-- The loop over all declared input ports in `main.py` lines 109-113. -/
def readBits (ports : List String) (answers : List String) : Option Vals :=
  match ports with
  | [] => some []
  | p :: ps =>
      match readBit answers with
      | none => none
      | some (n, rest) => (readBits ps rest).map (fun vs => (p, n) :: vs)

/-- Modelled from the spec: `verilogFuncs.find_top_module` is not under
`src/`. Spec 4.3: a module never referenced as any instance's type is a
candidate root; exactly one candidate is returned, zero or several fail. -/
def find_top_module (T : ModuleTable) : Option String :=
  let referenced := T.flatMap (fun p => p.2.instances.map (fun i => i.module))
  let candidates := (T.map (fun p => p.1)).filter (fun n => !(referenced.contains n))
  match candidates with
  | [c] => some c
  | _ => none

/-- Module-table lookup (`modules[name]`). -/
def tblLookup (T : ModuleTable) (k : String) : Option Module :=
  (T.find? (fun p => p.1 == k)).map (fun p => p.2)

/-- Input port names of a referenced type: a module's declared inputs, or a
primitive's catalog inputs. -/
def inPortsOfType (T : ModuleTable) (t : String) : Option (List String) :=
  match tblLookup T t with
  | some m => some m.inputs
  | none => (alookup primitive_ports t).map (fun p => p.1)

/-- Output port names of a referenced type. -/
def outPortsOfType (T : ModuleTable) (t : String) : Option (List String) :=
  match tblLookup T t with
  | some m => some m.outputs
  | none => (alookup primitive_ports t).map (fun p => p.2)

/-- Parent-module signals an instance drives (signals bound to its output
ports). -/
def producedSignals (T : ModuleTable) (i : Instance) : List String :=
  match outPortsOfType T i.module with
  | some outs =>
      i.connections.filterMap
        (fun c => if outs.contains c.port then some c.signal else none)
  | none => []

/-- Parent-module signals an instance reads (signals bound to its input
ports). -/
def consumedSignals (T : ModuleTable) (i : Instance) : List String :=
  match inPortsOfType T i.module with
  | some ins =>
      i.connections.filterMap
        (fun c => if ins.contains c.port then some c.signal else none)
  | none => []

/-- Spec 4.4 step 2: instance x depends on instance y when some input
connection of x references a signal y's outputs produce. -/
def dependsOn (T : ModuleTable) (x y : Instance) : Bool :=
  (consumedSignals T x).any (fun s => (producedSignals T y).contains s)

/-- An instance is ready once no still-pending instance it depends on
remains. -/
def readyIn (T : ModuleTable) (pending : List Instance) (x : Instance) : Bool :=
  pending.all (fun y => !(dependsOn T x y))

/-- Pick the first ready pending instance, spec 4.4 step 3; `none` is a
combinational loop. -/
def pickReady (T : ModuleTable) (pending : List Instance) :
    Option (Instance × List Instance) :=
  match pending.find? (fun x => readyIn T pending x) with
  | none => none
  | some x => some (x, pending.erase x)

/-- Spec 4.4 step 4: gather a primitive instance's bound input values from the
store, falling back to 0 for a connection omitted or not yet produced. -/
def primInputVals (path : List String) (st : Store) (ips : List String)
    (conns : List Connection) : Vals :=
  ips.map (fun p =>
    (p, match conns.find? (fun c => c.port == p) with
        | some c => (alookup st (qualifiedKey path c.signal)).getD 0
        | none => 0))

/-- Write an evaluated instance's outputs back to the parent's signals under
their qualified keys (spec 4.4 steps 4 and 5). -/
def writeOutputs (path : List String) (ops : List String)
    (conns : List Connection) (ov : Vals) (st : Store) : Store :=
  conns.foldl
    (fun s c =>
      if ops.contains c.port then
        storeSet s (qualifiedKey path c.signal) ((alookup ov c.port).getD 0)
      else s)
    st

/-- Spec 4.4 step 5: input values handed to a sub-module, read from the
parent's bound signals. -/
def subInputVals (path : List String) (st : Store) (ips : List String)
    (conns : List Connection) : Vals :=
  ips.map (fun p =>
    (p, match conns.find? (fun c => c.port == p) with
        | some c => (alookup st (qualifiedKey path c.signal)).getD 0
        | none => 0))

/-- One instance evaluation (spec 4.4 steps 4-5); `recur` is the recursive
engine call used for module-typed instances, `none` is an unresolved type or
a failed sub-evaluation. -/
def evalInst (T : ModuleTable)
    (recur : String → Vals → List String → Store → Option (Store × Vals))
    (path : List String) (st : Store) (i : Instance) : Option Store :=
  match tblLookup T i.module with
  | some sub =>
      match recur i.module (subInputVals path st sub.inputs i.connections)
          (path ++ [i.instance_name]) st with
      | none => none
      | some (st2, outVals) =>
          some (writeOutputs path sub.outputs i.connections outVals st2)
  | none =>
      match alookup primitive_ports i.module with
      | none => none
      | some (ips, ops) =>
          let ov := primSim i.module (primInputVals path st ips i.connections)
          some (writeOutputs path ops i.connections ov st)

/-- The dependency-ordered instance loop (spec 4.4 step 3): each round
evaluates the first ready instance; a round with pending instances but no
ready one, or exhausted rounds, is a combinational loop. -/
def runPending (T : ModuleTable) (evalOne : Store → Instance → Option Store) :
    Nat → List Instance → Store → Option Store
  | _, [], st => some st
  | 0, _ :: _, _ => none
  | n + 1, x :: pending, st =>
      match pickReady T (x :: pending) with
      | none => none
      | some (y, rest) =>
          match evalOne st y with
          | none => none
          | some st2 => runPending T evalOne n rest st2

/-- Modelled from the spec: `verilogFuncs.simulate_module` is not under
`src/`. Spec 4.4: bind the supplied inputs under the current path, evaluate
the instances in dependency order (primitives via the catalog, sub-modules
recursively with the path extended by the instance name), then return the
grown store together with the module's declared output values. The fuel
bounds the hierarchy depth; exhausting it, an unknown module name, an
unresolvable instance type or a combinational loop yield `none`. -/
def simulate_module (T : ModuleTable) :
    Nat → String → Vals → List String → Store → Option (Store × Vals)
  | 0, _, _, _, _ => none
  | fuel + 1, name, inputVals, path, store =>
      match tblLookup T name with
      | none => none
      | some m =>
          let st1 := m.inputs.foldl
            (fun st p => storeSet st (qualifiedKey path p) ((alookup inputVals p).getD 0))
            store
          match runPending T
              (fun st i =>
                evalInst T (fun nm iv p s => simulate_module T fuel nm iv p s) path st i)
              m.instances.length m.instances st1 with
          | none => none
          | some st2 =>
              some (st2,
                m.outputs.map (fun p => (p, (alookup st2 (qualifiedKey path p)).getD 0)))

/-- The ways the driver aborts (`sys.exit(1)` / raised exceptions), plus two
modelling artifacts for interactions the real program would block on
(`noInteractiveInput`) and engine failures it would raise through
(`simFailed`). -/
inductive MainErr
  | badMode
  | topNotFound
  | instanceNotFound
  | unsupportedPrimitive
  | loadFailed (e : LoadError)
  | noInteractiveInput
  | simFailed
deriving DecidableEq

/-- Every interactive and external input `main.py` consumes in the gate
branch: the two y/n prompt answers, the bit file's content, the typed
per-port answers, the interactively gathered top-level input values
(the absent `verilogFuncs.get_input_values`), and the exit status of the
external dot-to-PDF renderer invocation. -/
structure Env where
  localOnlyAnswer : String
  loadAnswer : String
  fileContent : String
  interactiveAnswers : List String
  topInputs : Vals
  renderStatus : Int
deriving DecidableEq

/-- What the gate branch leaves behind: the printed input and output value
mappings (`main.py` lines 125-126), whether the PDF conversion succeeded, and
whether its failure was reported (lines 141-144). -/
structure GateOutcome where
  in_vals : Vals
  out_vals : Vals
  pdfGenerated : Bool
  renderFailureReported : Bool
deriving DecidableEq

/-- The value `main.py` line 93 reads for one connection: the stored value
under the top-qualified key, 0 when the key is absent. -/
def connValue (top : String) (st : Store) (c : Connection) : Nat :=
  (alookup st (topKey top c.signal)).getD 0

/-- The loop of `main.py` lines 89-93 building the selected instance's input
values from the full-circuit signal store. -/
def gatherInVals (top : String) (st : Store) (conns : List Connection) : Vals :=
  conns.foldl (fun acc c => storeSet acc c.port (connValue top st c)) []

/-- The input-value acquisition of the `--gate` branch, `main.py` lines
79-113: answering n to the local-only prompt derives the values from a
full-circuit simulation via the instance's bound signals; otherwise they come
from a bit file or from interactive entry. -/
def gateInVals (env : Env) (T : ModuleTable) (top : String) (inst : Instance)
    (ips : List String) (fuel : Nat) : Except MainErr Vals :=
  if answerStarts env.localOnlyAnswer 'n' then
    match simulate_module T fuel top env.topInputs [top] [] with
    | none => .error .simFailed
    | some (signal_values, _) =>
        .ok (gatherInVals top signal_values inst.connections)
  else if answerStarts env.loadAnswer 'y' then
    match load_bits env.fileContent ips with
    | .error e => .error (.loadFailed e)
    | .ok vals => .ok vals
  else
    match readBits ips env.interactiveAnswers with
    | none => .error .noInteractiveInput
    | some vals => .ok vals

/-- The `--gate` branch of `main.py` lines 58-145: find the instance among the
top module's direct instances, map its type to a primitive tag, require the
tag in the catalog, obtain input values by one of the three modes, evaluate
the primitive, and render. -/
def gateFlow (env : Env) (T : ModuleTable) (top gate : String) (fuel : Nat) :
    Except MainErr GateOutcome :=
  match tblLookup T top with
  | none => .error .topNotFound
  | some m =>
    match m.instances.find? (fun i => i.instance_name == gate) with
    | none => .error .instanceNotFound
    | some inst =>
      let gate_type := mapGateType inst.module
      match alookup primitive_ports gate_type with
      | none => .error .unsupportedPrimitive
      | some (ips, _) =>
        match gateInVals env T top inst ips fuel with
        | .error e => .error e
        | .ok in_vals =>
            .ok { in_vals := in_vals
                , out_vals := primSim gate_type in_vals
                , pdfGenerated := env.renderStatus == 0
                , renderFailureReported := env.renderStatus != 0 }

/-- What the full-design branch leaves behind: the signal store handed to the
visualizer and the rendering outcome (`main.py` lines 149-167). -/
structure FullOutcome where
  signal_values : Store
  pdfGenerated : Bool
  renderFailureReported : Bool
deriving DecidableEq

/-- The full-design branch of `main.py` lines 147-167: simulate the top
module, generate the DOT file, convert it to PDF, report a failed
conversion. -/
def fullFlow (env : Env) (T : ModuleTable) (top : String) (fuel : Nat) :
    Except MainErr FullOutcome :=
  match simulate_module T fuel top env.topInputs [top] [] with
  | none => .error .simFailed
  | some (sv, _) =>
      .ok { signal_values := sv
          , pdfGenerated := env.renderStatus == 0
          , renderFailureReported := env.renderStatus != 0 }

/-- The driver after argument parsing (`main.py` lines 43-167): validate the
mode, resolve the top module (auto-detecting when none was given), then run
either the `--gate` branch or the full-design branch. The parsed module table
stands in for the parsed Verilog file. -/
def mainRun (mode : String) (env : Env) (T : ModuleTable) (topArg : String)
    (gateArg : Option String) (fuel : Nat) :
    Except MainErr (GateOutcome ⊕ FullOutcome) :=
  if !(mode == "H" || mode == "V") then .error .badMode
  else
    match (if topArg == "" then find_top_module T else some topArg) with
    | none => .error .topNotFound
    | some top =>
        match gateArg with
        | some g => (gateFlow env T top g fuel).map Sum.inl
        | none => (fullFlow env T top fuel).map Sum.inr

/-- Character-level view of the underscore join, used to analyse when two
qualified keys can coincide. -/
def joinC : List (List Char) → List Char
  | [] => []
  | [x] => x
  | x :: y :: ys => x ++ '_' :: joinC (y :: ys)

/-- A three-bit ripple-style netlist: the spec section 8 end-to-end scenario,
a full adder built from XOR, AND and OR instances. -/
def fullAdderNetlist : ModuleTable :=
  [("top",
    { inputs := ["A", "B", "CIN"], outputs := ["SUM", "COUT"], wires := ["w1", "w2", "w3"],
      instances :=
        [ { instance_name := "x1", module := "XOR",
            connections := [⟨"A", "A"⟩, ⟨"B", "B"⟩, ⟨"Y", "w1"⟩] }
        , { instance_name := "x2", module := "XOR",
            connections := [⟨"A", "w1"⟩, ⟨"B", "CIN"⟩, ⟨"Y", "SUM"⟩] }
        , { instance_name := "a1", module := "AND",
            connections := [⟨"A", "A"⟩, ⟨"B", "B"⟩, ⟨"Y", "w2"⟩] }
        , { instance_name := "a2", module := "AND",
            connections := [⟨"A", "w1"⟩, ⟨"B", "CIN"⟩, ⟨"Y", "w3"⟩] }
        , { instance_name := "o1", module := "OR",
            connections := [⟨"A", "w2"⟩, ⟨"B", "w3"⟩, ⟨"Y", "COUT"⟩] } ] })]

/-- A one-gate top module used as a concrete evaluation scenario. -/
def mA : Module :=
  { inputs := ["A"], outputs := ["S"], wires := [],
    instances :=
      [ { instance_name := "u1", module := "AND",
          connections := [⟨"A", "A"⟩, ⟨"B", "A"⟩, ⟨"Y", "S"⟩] } ] }

/-- Table holding only `mA`. -/
def tblA : ModuleTable := [("top", mA)]

/-- A top module with an instance of an unknown type tag. -/
def mB : Module :=
  { inputs := ["A"], outputs := [], wires := [],
    instances := [ { instance_name := "u9", module := "XYZ", connections := [] } ] }

/-- Table holding only `mB`. -/
def tblB : ModuleTable := [("top", mB)]

/-- A hierarchy whose gate `g` lives only inside the sub-module, not in the
top module. -/
def mCsub : Module :=
  { inputs := ["A"], outputs := ["Y"], wires := [],
    instances :=
      [ { instance_name := "g", module := "NOT",
          connections := [⟨"A", "A"⟩, ⟨"Y", "Y"⟩] } ] }

/-- Top module of the nested-gate scenario: it instantiates `sub` but has no
direct instance named `g`. -/
def mCtop : Module :=
  { inputs := ["A"], outputs := ["Z"], wires := [],
    instances :=
      [ { instance_name := "s1", module := "sub",
          connections := [⟨"A", "A"⟩, ⟨"Y", "Z"⟩] } ] }

/-- Table of the nested-gate scenario. -/
def tblC : ModuleTable := [("top", mCtop), ("sub", mCsub)]

/-- A concrete interaction environment: answer n to the local-only prompt,
top-level input A set to 1, renderer succeeding. -/
def envA : Env :=
  { localOnlyAnswer := "n", loadAnswer := "", fileContent := "",
    interactiveAnswers := [], topInputs := [("A", 1)], renderStatus := 0 }

/-- The instance of `mA`, and the store its full-circuit simulation builds. -/
def instA : Instance :=
  { instance_name := "u1", module := "AND",
    connections := [⟨"A", "A"⟩, ⟨"B", "A"⟩, ⟨"Y", "S"⟩] }

/-- The signal store `simulate_module tblA 2 top (A to 1)` produces. -/
def svA : Store := [("top_A", 1), ("top_S", 1)]

/-! Theorems. -/

/-- Splitting at an underscore separator is unambiguous when neither prefix
contains an underscore. -/
theorem split_at_sep : ∀ (a : List Char) {b u v : List Char},
    '_' ∉ a → '_' ∉ b → a ++ '_' :: u = b ++ '_' :: v → a = b ∧ u = v := by
  intro a
  induction a with
  | nil =>
    intro b u v _ hb h
    cases b with
    | nil =>
      simp at h
      exact ⟨rfl, h⟩
    | cons d b' =>
      simp at h
      exact absurd (h.1 ▸ List.mem_cons_self d b') hb
  | cons c a' ih =>
    intro b u v ha hb h
    cases b with
    | nil =>
      simp at h
      exact absurd (h.1 ▸ List.mem_cons_self c a') ha
    | cons d b' =>
      simp at h
      obtain ⟨hcd, hrest⟩ := h
      have ha' : '_' ∉ a' := fun hx => ha (List.mem_cons_of_mem c hx)
      have hb' : '_' ∉ b' := fun hx => hb (List.mem_cons_of_mem d hx)
      obtain ⟨h1, h2⟩ := ih ha' hb' hrest
      exact ⟨by rw [hcd, h1], h2⟩

/-- A join of two or more components always contains the separator. -/
theorem mem_joinC_cons2 (x y : List Char) (ys : List (List Char)) :
    '_' ∈ joinC (x :: y :: ys) := by
  simp [joinC]

/-- The underscore join is injective on nonempty lists of underscore-free
components. -/
theorem joinC_inj : ∀ (A B : List (List Char)),
    (∀ x ∈ A, '_' ∉ x) → (∀ x ∈ B, '_' ∉ x) → A ≠ [] → B ≠ [] →
    joinC A = joinC B → A = B
  | [], _, _, _, hA, _, _ => absurd rfl hA
  | _ :: _, [], _, _, _, hB, _ => absurd rfl hB
  | [x], [y], _, _, _, _, h => by
      simp only [joinC] at h
      rw [h]
  | [x], y :: z :: zs, hA, _, _, _, h => by
      exfalso
      have hx : '_' ∉ x := hA x (by simp)
      have hmem : '_' ∈ joinC (y :: z :: zs) := mem_joinC_cons2 y z zs
      have hx' : joinC [x] = x := rfl
      rw [hx'] at h
      rw [h] at hx
      exact hx hmem
  | x :: x' :: xs, [y], _, hB, _, _, h => by
      exfalso
      have hy : '_' ∉ y := hB y (by simp)
      have hmem : '_' ∈ joinC (x :: x' :: xs) := mem_joinC_cons2 x x' xs
      have hy' : joinC [y] = y := rfl
      rw [hy'] at h
      rw [← h] at hy
      exact hy hmem
  | x :: x' :: xs, y :: y' :: ys, hA, hB, _, _, h => by
      have hx : '_' ∉ x := hA x (by simp)
      have hy : '_' ∉ y := hB y (by simp)
      have h2 : x ++ '_' :: joinC (x' :: xs) = y ++ '_' :: joinC (y' :: ys) := h
      obtain ⟨hxy, hrest⟩ := split_at_sep x hx hy h2
      have ih := joinC_inj (x' :: xs) (y' :: ys)
        (fun z hz => hA z (List.mem_cons_of_mem x hz))
        (fun z hz => hB z (List.mem_cons_of_mem y hz))
        (by simp) (by simp) hrest
      rw [hxy, ih]

/-- The string-level key join agrees with the character-level join. -/
theorem joinKey_data : ∀ l : List String,
    (joinKey l).data = joinC (l.map (fun s => s.data))
  | [] => rfl
  | [s] => rfl
  | s :: r :: rest => by
      have ih := joinKey_data (r :: rest)
      show (s ++ "_" ++ joinKey (r :: rest)).data
        = joinC (s.data :: (r :: rest).map (fun s => s.data))
      rw [String.data_append, String.data_append, ih]
      simp [joinC]

/-- The input-acquisition step can fail only with its own error kinds, never
with the unsupported-primitive error. -/
theorem gateInVals_ne_unsupported (env : Env) (T : ModuleTable) (top : String)
    (inst : Instance) (ips : List String) (fuel : Nat) :
    gateInVals env T top inst ips fuel ≠ Except.error MainErr.unsupportedPrimitive := by
  unfold gateInVals
  split
  · split <;> simp
  · split
    · split <;> simp
    · split <;> simp

/-- C1: when a gate instance is selected, its referenced type name is mapped
before any primitive-catalog lookup: full_adder becomes FA, half_adder
becomes HA, every other name is unchanged, and the gate branch's catalog
check fails exactly when the mapped tag is missing from the catalog. -/
theorem mapGateType_before_primitive_lookup :
    mapGateType "full_adder" = "FA" ∧ mapGateType "half_adder" = "HA" ∧
    (∀ t : String, t ≠ "full_adder" → t ≠ "half_adder" → mapGateType t = t) ∧
    (∀ (env : Env) (T : ModuleTable) (top gate : String) (fuel : Nat)
       (m : Module) (inst : Instance),
      tblLookup T top = some m →
      m.instances.find? (fun i => i.instance_name == gate) = some inst →
      (gateFlow env T top gate fuel = Except.error MainErr.unsupportedPrimitive ↔
        alookup primitive_ports (mapGateType inst.module) = none)) := by
  refine ⟨rfl, rfl, ?_, ?_⟩
  · intro t h1 h2
    simp [mapGateType, h1, h2]
  · intro env T top gate fuel m inst h1 h2
    cases h3 : alookup primitive_ports (mapGateType inst.module) with
    | none => simp [gateFlow, h1, h2, h3]
    | some pr =>
      simp only [gateFlow, h1, h2, h3]
      constructor
      · intro h
        exfalso
        revert h
        cases h4 : gateInVals env T top inst pr.1 fuel with
        | error e =>
          intro h
          simp at h
          subst h
          exact gateInVals_ne_unsupported env T top inst pr.1 fuel h4
        | ok v => simp
      · intro h
        exact absurd h (by simp)

/-- C1 witness: an unmapped tag at a concrete input. -/
theorem mapGateType_before_primitive_lookup_witness : mapGateType "XOR" = "XOR" :=
  mapGateType_before_primitive_lookup.2.2.1 "XOR" (by decide) (by decide)

/-- C3: a selected gate whose mapped type tag is not in the primitive catalog
makes the gate branch fail with the unsupported-primitive error, producing no
evaluation and no output values. -/
theorem unsupported_primitive_rejected (env : Env) (T : ModuleTable)
    (top gate : String) (fuel : Nat) (m : Module) (inst : Instance)
    (h1 : tblLookup T top = some m)
    (h2 : m.instances.find? (fun i => i.instance_name == gate) = some inst)
    (h3 : alookup primitive_ports (mapGateType inst.module) = none) :
    gateFlow env T top gate fuel = Except.error MainErr.unsupportedPrimitive := by
  simp [gateFlow, h1, h2, h3]

/-- C3 witness: the concrete type tag XYZ is rejected. -/
theorem unsupported_primitive_rejected_witness :
    gateFlow envA tblB "top" "u9" 2 = Except.error MainErr.unsupportedPrimitive :=
  unsupported_primitive_rejected envA tblB "top" "u9" 2 mB
    { instance_name := "u9", module := "XYZ", connections := [] }
    (by rfl) (by rfl) (by rfl)

/-- C9: the gate lookup searches only the top module's direct instances; a
name absent there (even one nested inside a sub-module) aborts the gate
branch with the not-found error before any simulation. -/
theorem gate_lookup_top_level_only (env : Env) (T : ModuleTable)
    (top gate : String) (fuel : Nat) (m : Module)
    (h1 : tblLookup T top = some m)
    (h2 : m.instances.find? (fun i => i.instance_name == gate) = none) :
    gateFlow env T top gate fuel = Except.error MainErr.instanceNotFound := by
  simp [gateFlow, h1, h2]

/-- C9 witness: gate g exists inside the sub-module of `tblC` but not in the
top module, and the lookup fails. -/
theorem gate_lookup_top_level_only_witness :
    gateFlow envA tblC "top" "g" 2 = Except.error MainErr.instanceNotFound ∧
    (mCsub.instances.map (fun i => i.instance_name)).contains "g" = true :=
  ⟨gate_lookup_top_level_only envA tblC "top" "g" 2 mCtop (by rfl) (by rfl),
   by decide⟩

/-- C8: the mode argument has no effect beyond its H/V validation: runs with
mode H and mode V agree on everything else. -/
theorem mode_has_no_effect (env : Env) (T : ModuleTable) (topArg : String)
    (gateArg : Option String) (fuel : Nat) :
    mainRun "H" env T topArg gateArg fuel = mainRun "V" env T topArg gateArg fuel := rfl

/-- C6: the evaluation engine is deterministic: equal module tables and equal
top-level input values give bit-for-bit identical results; the embedding has
no hidden state. -/
theorem simulate_deterministic (T T' : ModuleTable) (fuel : Nat) (top : String)
    (iv iv' : Vals) (h1 : T = T') (h2 : iv = iv') :
    simulate_module T fuel top iv [top] []
      = simulate_module T' fuel top iv' [top] [] := by
  rw [h1, h2]

/-- C6 witness: two runs of the spec section 8 full-adder scenario agree. -/
theorem simulate_deterministic_witness :
    simulate_module fullAdderNetlist 4 "top" [("A", 1), ("B", 0), ("CIN", 1)] ["top"] []
      = simulate_module fullAdderNetlist 4 "top" [("A", 1), ("B", 0), ("CIN", 1)] ["top"] [] :=
  simulate_deterministic fullAdderNetlist fullAdderNetlist 4 "top"
    [("A", 1), ("B", 0), ("CIN", 1)] [("A", 1), ("B", 0), ("CIN", 1)] rfl rfl

/-- The engine computes the spec section 8 end-to-end scenario: inputs
A=1, B=0, CIN=1 give SUM=0 and COUT=1. -/
theorem engine_full_adder_example :
    simulate_module fullAdderNetlist 4 "top" [("A", 1), ("B", 0), ("CIN", 1)] ["top"] []
      = some ([("top_A", 1), ("top_B", 0), ("top_CIN", 1), ("top_w1", 1), ("top_SUM", 0),
               ("top_w2", 0), ("top_w3", 1), ("top_COUT", 1)],
              [("SUM", 0), ("COUT", 1)]) := by
  decide

/-- C4: gathering a primitive instance's bound inputs from the store falls
back to 0 for every connection whose qualified key is absent, and the gate
branch still evaluates the instance rather than skipping it. -/
theorem unbound_connection_defaults_zero :
    (∀ (top : String) (st : Store) (c : Connection),
      alookup st (topKey top c.signal) = none → connValue top st c = 0) ∧
    (∀ (env : Env) (T : ModuleTable) (top gate : String) (fuel : Nat)
       (m : Module) (inst : Instance) (ips ops : List String) (sv : Store) (ov : Vals),
      tblLookup T top = some m →
      m.instances.find? (fun i => i.instance_name == gate) = some inst →
      alookup primitive_ports (mapGateType inst.module) = some (ips, ops) →
      answerStarts env.localOnlyAnswer 'n' = true →
      simulate_module T fuel top env.topInputs [top] [] = some (sv, ov) →
      gateFlow env T top gate fuel = Except.ok
        { in_vals := gatherInVals top sv inst.connections
        , out_vals := primSim (mapGateType inst.module) (gatherInVals top sv inst.connections)
        , pdfGenerated := env.renderStatus == 0
        , renderFailureReported := env.renderStatus != 0 }) := by
  constructor
  · intro top st c h
    simp [connValue, h]
  · intro env T top gate fuel m inst ips ops sv ov h1 h2 h3 h4 h5
    simp [gateFlow, gateInVals, h1, h2, h3, h4, h5]

/-- C4 witness: the concrete one-gate scenario is evaluated from its simulated
store, and an absent key concretely yields 0. -/
theorem unbound_connection_defaults_zero_witness :
    connValue "top" [] ⟨"IN", "w"⟩ = 0 ∧
    gateFlow envA tblA "top" "u1" 2 = Except.ok
      { in_vals := gatherInVals "top" svA instA.connections
      , out_vals := primSim (mapGateType instA.module) (gatherInVals "top" svA instA.connections)
      , pdfGenerated := envA.renderStatus == 0
      , renderFailureReported := envA.renderStatus != 0 } :=
  ⟨unbound_connection_defaults_zero.1 "top" [] ⟨"IN", "w"⟩ (by rfl),
   unbound_connection_defaults_zero.2 envA tblA "top" "u1" 2 mA instA
     ["A", "B"] ["Y"] svA [("S", 1)] (by rfl) (by rfl) (by rfl) (by rfl) (by decide)⟩

/-- The input-acquisition step ignores the renderer status field. -/
theorem gateInVals_env_render (env : Env) (s : Int) (T : ModuleTable) (top : String)
    (inst : Instance) (ips : List String) (fuel : Nat) :
    gateInVals { env with renderStatus := s } T top inst ips fuel
      = gateInVals env T top inst ips fuel := rfl

/-- Every successful gate branch reports the renderer outcome read off the
exit status. -/
theorem gateFlow_ok_render (env : Env) (T : ModuleTable) (top gate : String)
    (fuel : Nat) (r : GateOutcome) (h : gateFlow env T top gate fuel = Except.ok r) :
    r.renderFailureReported = (env.renderStatus != 0) ∧
    r.pdfGenerated = (env.renderStatus == 0) := by
  simp only [gateFlow] at h
  split at h
  · simp at h
  split at h
  · simp at h
  split at h
  · simp at h
  split at h
  · simp at h
  · simp at h
    subst h
    simp

/-- Every successful full-design run reports the renderer outcome read off
the exit status. -/
theorem fullFlow_ok_render (env : Env) (T : ModuleTable) (top : String)
    (fuel : Nat) (r : FullOutcome) (h : fullFlow env T top fuel = Except.ok r) :
    r.renderFailureReported = (env.renderStatus != 0) ∧
    r.pdfGenerated = (env.renderStatus == 0) := by
  simp only [fullFlow] at h
  split at h
  · simp at h
  · simp at h
    subst h
    simp

/-- C7: a failed renderer invocation (nonzero exit status) is reported, and
the already computed simulation result is unchanged: the input/output values
of the gate branch and the signal store of the full-design branch do not
depend on the renderer status. -/
theorem render_failure_preserves_result (env : Env) (T : ModuleTable)
    (top gate : String) (fuel : Nat) (s s' : Int) :
    ((gateFlow { env with renderStatus := s } T top gate fuel).map
        (fun r => (r.in_vals, r.out_vals)) =
      (gateFlow { env with renderStatus := s' } T top gate fuel).map
        (fun r => (r.in_vals, r.out_vals))) ∧
    ((fullFlow { env with renderStatus := s } T top fuel).map
        (fun r => r.signal_values) =
      (fullFlow { env with renderStatus := s' } T top fuel).map
        (fun r => r.signal_values)) ∧
    (∀ r, s ≠ 0 → gateFlow { env with renderStatus := s } T top gate fuel = Except.ok r →
      r.renderFailureReported = true ∧ r.pdfGenerated = false) ∧
    (∀ r, s ≠ 0 → fullFlow { env with renderStatus := s } T top fuel = Except.ok r →
      r.renderFailureReported = true ∧ r.pdfGenerated = false) := by
  refine ⟨?_, ?_, ?_, ?_⟩
  · simp only [gateFlow, gateInVals_env_render]
    cases htbl : tblLookup T top with
    | none => rfl
    | some m =>
      cases hfind : List.find? (fun i => i.instance_name == gate) m.instances with
      | none => simp [hfind]
      | some inst =>
        cases halk : alookup primitive_ports (mapGateType inst.module) with
        | none => simp [hfind, halk]
        | some pr =>
          obtain ⟨ips, ops⟩ := pr
          cases hgiv : gateInVals env T top inst ips fuel with
          | error e => simp [hfind, halk, hgiv]
          | ok v => simp [hfind, halk, hgiv, Except.map]
  · simp only [fullFlow]
    cases hsim : simulate_module T fuel top env.topInputs [top] [] with
    | none => rfl
    | some p =>
      obtain ⟨sv, ov⟩ := p
      rfl
  · intro r hs h
    obtain ⟨hr1, hr2⟩ := gateFlow_ok_render _ _ _ _ _ _ h
    constructor
    · rw [hr1]
      simp [bne_iff_ne, hs]
    · rw [hr2]
      simp [beq_eq_false_iff_ne, hs]
  · intro r hs h
    obtain ⟨hr1, hr2⟩ := fullFlow_ok_render _ _ _ _ _ h
    constructor
    · rw [hr1]
      simp [bne_iff_ne, hs]
    · rw [hr2]
      simp [beq_eq_false_iff_ne, hs]

/-- C7 witness: the one-gate scenario with exit status 1 keeps its store and
reports the failure. -/
theorem render_failure_preserves_result_witness :
    ({ signal_values := svA, pdfGenerated := false, renderFailureReported := true
       : FullOutcome }).renderFailureReported = true ∧
    ({ signal_values := svA, pdfGenerated := false, renderFailureReported := true
       : FullOutcome }).pdfGenerated = false :=
  (render_failure_preserves_result envA tblA "top" "u1" 2 1 0).2.2.2
    { signal_values := svA, pdfGenerated := false, renderFailureReported := true }
    (by decide) (by rfl)

/-- All-digit character lists convert to their digit values. -/
theorem digitsVal_all (l : List Char) (h : ∀ c ∈ l, c.isDigit = true) :
    digitsVal l = some (l.map (fun c => c.toNat - '0'.toNat)) := by
  induction l with
  | nil => rfl
  | cons c cs ih =>
    have hc : c.isDigit = true := h c (by simp)
    have ih' := ih (fun x hx => h x (by simp [hx]))
    simp [digitsVal, digitVal, hc, ih']

/-- C2 counterexample: the file abc strips to exactly 3 characters against 3
declared inputs, yet loading fails (int of a non-digit raises), refuting the
claim that every length-matching file loads successfully. -/
theorem load_bits_nondigit_fails_cex :
    (stripBits "abc").length = (["A", "B", "CIN"] : List String).length ∧
    load_bits "abc" ["A", "B", "CIN"] = Except.error LoadError.invalidLiteral := by
  constructor
  · rfl
  · rfl

/-- C2 amended: a file whose stripped content has exactly one decimal digit
per declared input port loads successfully, assigning the i-th digit's value
to the i-th port; a stripped length differing from the input count fails with
the bit-count-mismatch error. -/
theorem load_bits_spec_amended :
    (∀ (content : String) (inputs : List String),
      (stripBits content).length = inputs.length →
      (∀ c ∈ stripBits content, c.isDigit = true) →
      load_bits content inputs =
        Except.ok (inputs.zip ((stripBits content).map (fun c => c.toNat - '0'.toNat)))) ∧
    (∀ (content : String) (inputs : List String),
      (stripBits content).length ≠ inputs.length →
      load_bits content inputs = Except.error LoadError.bitCountMismatch) := by
  constructor
  · intro content inputs hlen hdig
    simp [load_bits, hlen, digitsVal_all _ hdig]
  · intro content inputs hlen
    simp [load_bits, hlen]

/-- C2 witness: the spec's own example 1,0,1 against three ports, and a
2-character file against three ports. -/
theorem load_bits_spec_amended_witness :
    load_bits "1,0,1" ["port1", "port2", "port3"] =
      Except.ok (["port1", "port2", "port3"].zip
        ((stripBits "1,0,1").map (fun c => c.toNat - '0'.toNat))) ∧
    load_bits "10" ["port1", "port2", "port3"] = Except.error LoadError.bitCountMismatch :=
  ⟨load_bits_spec_amended.1 "1,0,1" ["port1", "port2", "port3"] (by decide) (by decide),
   load_bits_spec_amended.2 "10" ["port1", "port2", "port3"] (by decide)⟩

/-- C10: the bit-file loader validates only the character count, accepting
any digit (such as 7) as a port value, while the interactive loop rejects
everything except the exact strings 0 and 1. -/
theorem load_bits_accepts_any_digit :
    (∀ (content : String) (inputs : List String),
      (∀ c ∈ stripBits content, c.isDigit = true) →
      (stripBits content).length = inputs.length →
      load_bits content inputs =
        Except.ok (inputs.zip ((stripBits content).map (fun c => c.toNat - '0'.toNat)))) ∧
    load_bits "7,0,1" ["A", "B", "CIN"] = Except.ok [("A", 7), ("B", 0), ("CIN", 1)] ∧
    (∀ (v : String) (rest : List String),
      interactiveAccepts v = false → readBit (v :: rest) = readBit rest) ∧
    (∀ v : String, interactiveAccepts v = true ↔ (v = "0" ∨ v = "1")) := by
  refine ⟨?_, ?_, ?_, ?_⟩
  · intro content inputs hdig hlen
    simp [load_bits, hlen, digitsVal_all _ hdig]
  · rfl
  · intro v rest h
    simp [readBit, h]
  · intro v
    simp [interactiveAccepts]

/-- C10 witness: a digit file loads, while the interactive loop skips the
rejected answer 7 and then accepts 1. -/
theorem load_bits_accepts_any_digit_witness :
    load_bits "101" ["a", "b", "c"] =
      Except.ok (["a", "b", "c"].zip
        ((stripBits "101").map (fun c => c.toNat - '0'.toNat))) ∧
    readBit ["7", "1"] = readBit ["1"] :=
  ⟨load_bits_accepts_any_digit.1 "101" ["a", "b", "c"] (by decide) (by decide),
   load_bits_accepts_any_digit.2.2.1 "7" ["1"] (by decide)⟩

/-- C5 counterexample: with underscore-joined keys, the distinct paths a_b
and a, b produce the same qualified key, refuting the unconditional
no-collision claim. -/
theorem qualifiedKey_collision_cex :
    qualifiedKey ["a_b"] "c" = qualifiedKey ["a", "b"] "c" ∧
    (["a_b"] : List String) ≠ ["a", "b"] := by
  constructor
  · rfl
  · decide

/-- C5 amended: every store key is built purely from the instantiation path
and the local signal name — for a top-local signal it is the top module
name, an underscore, and the signal name — and as long as no name component
contains an underscore, distinct (path, signal) pairs never produce the same
key. -/
theorem qualifiedKey_spec_amended :
    (∀ top sig : String, qualifiedKey [top] sig = topKey top sig) ∧
    (∀ (p₁ p₂ : List String) (s₁ s₂ : String),
      (∀ x ∈ p₁, '_' ∉ x.data) → '_' ∉ s₁.data →
      (∀ x ∈ p₂, '_' ∉ x.data) → '_' ∉ s₂.data →
      qualifiedKey p₁ s₁ = qualifiedKey p₂ s₂ → p₁ = p₂ ∧ s₁ = s₂) := by
  constructor
  · intro top sig
    rfl
  · intro p₁ p₂ s₁ s₂ h₁ h₂ h₃ h₄ h
    have hdata : joinC ((p₁ ++ [s₁]).map (fun s => s.data))
        = joinC ((p₂ ++ [s₂]).map (fun s => s.data)) := by
      rw [← joinKey_data, ← joinKey_data]
      exact congrArg String.data h
    have hmemA : ∀ x ∈ (p₁ ++ [s₁]).map (fun s => s.data), '_' ∉ x := by
      intro x hx
      simp only [List.mem_map, List.mem_append, List.mem_singleton] at hx
      obtain ⟨y, hy, rfl⟩ := hx
      cases hy with
      | inl hy => exact h₁ y hy
      | inr hy => exact hy ▸ h₂
    have hmemB : ∀ x ∈ (p₂ ++ [s₂]).map (fun s => s.data), '_' ∉ x := by
      intro x hx
      simp only [List.mem_map, List.mem_append, List.mem_singleton] at hx
      obtain ⟨y, hy, rfl⟩ := hx
      cases hy with
      | inl hy => exact h₃ y hy
      | inr hy => exact hy ▸ h₄
    have hne1 : (p₁ ++ [s₁]).map (fun s => s.data) ≠ [] := by simp
    have hne2 : (p₂ ++ [s₂]).map (fun s => s.data) ≠ [] := by simp
    have hlist := joinC_inj _ _ hmemA hmemB hne1 hne2 hdata
    have hinj : Function.Injective (List.map (fun s : String => s.data)) :=
      List.map_injective_iff.mpr (fun a b hab => String.ext hab)
    have hl : p₁ ++ [s₁] = p₂ ++ [s₂] := hinj hlist
    obtain ⟨hp, hs⟩ := List.append_inj' hl rfl
    refine ⟨hp, ?_⟩
    injection hs

/-- C5 witness: the format equation at concrete names, and the injectivity
applied to an underscore-free concrete pair. -/
theorem qualifiedKey_spec_amended_witness :
    qualifiedKey ["top"] "S" = topKey "top" "S" ∧
    ((["a", "b"] : List String) = ["a", "b"] ∧ ("c" : String) = "c") :=
  ⟨qualifiedKey_spec_amended.1 "top" "S",
   qualifiedKey_spec_amended.2 ["a", "b"] ["a", "b"] "c" "c"
     (by decide) (by decide) (by decide) (by decide) rfl⟩

end VlsiLab
